import Mathlib

/-!
Shallow embedding of the container lifecycle and resource-policy engine of
`src/lxc-bot-v1.py` (a chat-operated LXC fleet controller), together with
proofs about the claims of its specification.

Conventions of the embedding:
* The in-memory registry `vps_data` (a Python dict mapping an owner id to a
  list of VPS records, insertion ordered) is a `List (String × List VPS)`.
* The hypervisor gateway (`execute_lxc` and raw subprocess calls) is an
  oracle `String → Bool` mapping the issued command line to success; a
  `false` models the call raising.  Operations return the list of command
  lines they actually issued, in order.
* Python strings are Lean `String`s; the few string algorithms the source
  uses (`splitlines`, `split`, `rstrip`, `replace`, substring search) are
  re-implemented structurally over `List Char` so that everything reduces
  in the kernel.
* Percentages sampled as Python floats are modelled as `ℚ`; the values the
  source manipulates (one-decimal `top` output, integer-ratio `free`
  output, integer thresholds) are all exactly representable.
-/

/-! ### Character-list utilities (Python string primitives) -/

/-- Split a character list at every occurrence of `sep` (Python
`str.split(sep)` for a one-character separator; with `sep = '\n'` it is
`str.splitlines()` for newline-separated text). -/
def split_on_char (sep : Char) : List Char → List (List Char)
  | [] => [[]]
  | c :: rest =>
    let r := split_on_char sep rest
    if c == sep then [] :: r
    else
      match r with
      | [] => [[c]]
      | h :: t => (c :: h) :: t

/-- Python `str.split()` with no argument: split on blanks and drop the
empty pieces. -/
def pysplit (l : List Char) : List (List Char) :=
  (split_on_char ' ' l).filter (fun w => !w.isEmpty)

/-- Python `str.rstrip(',')`: drop trailing commas. -/
def rstrip_comma (l : List Char) : List Char :=
  (l.reverse.dropWhile (fun c => c == ',')).reverse

/-- Python `str.replace('GB', '')`: remove every (non-overlapping,
left-to-right) occurrence of `GB`. -/
def remove_gb : List Char → List Char
  | [] => []
  | 'G' :: 'B' :: rest => remove_gb rest
  | c :: rest => c :: remove_gb rest

/-- Substring test on character lists (Python `in` on strings). -/
def contains_sub (l pat : List Char) : Bool :=
  l.tails.any (fun t => pat.isPrefixOf t)

/-- Substring test on strings (Python `pat in s`). -/
def str_contains (s pat : String) : Bool :=
  contains_sub s.toList pat.toList

def is_digit (c : Char) : Bool :=
  48 ≤ c.toNat && c.toNat ≤ 57

def digits_to_nat (l : List Char) : Nat :=
  l.foldl (fun a c => a * 10 + (c.toNat - 48)) 0

/-- Python `int(s)` on the decimal digit strings the registry stores
(`"2"`, `"10"`, ...): `none` models `int` raising `ValueError`. -/
def parse_int (l : List Char) : Option Nat :=
  if l ≠ [] ∧ l.all is_digit then some (digits_to_nat l) else none

/-- Python `float(s)` on the non-negative decimal literals produced by
`top` (`"93.5"`, `"100"`, ...): `none` models `float` raising
`ValueError`. -/
def parse_float (l : List Char) : Option ℚ :=
  match split_on_char '.' l with
  | [a] => (parse_int a).map (fun n => (n : ℚ))
  | [a, b] =>
    if (a ≠ [] ∨ b ≠ []) ∧ a.all is_digit ∧ b.all is_digit then
      some ((digits_to_nat a : ℚ) + (digits_to_nat b : ℚ) / ((10 : ℚ) ^ b.length))
    else none
  | _ => none

/-! ### Data model (`vps_data` records of `lxc-bot-v1.py`) -/

/-- One entry of a record's `suspension_history` list (`{time, reason,
by}` in the source; `by` is a Lean keyword, hence `by_`). -/
structure SuspensionEntry where
  time : String
  reason : String
  by_ : String
deriving DecidableEq

/-- One VPS record, with exactly the fields `create_vps` writes. -/
structure VPS where
  container_name : String
  ram : String
  cpu : String
  storage : String
  config : String
  status : String
  suspended : Bool
  suspension_history : List SuspensionEntry
  created_at : String
  shared_with : List String
deriving DecidableEq

/-- The in-memory `vps_data` dict: owner id ↦ ordered list of records. -/
abbrev Registry := List (String × List VPS)

/-- Environment defaults of the source (`CPU_THRESHOLD`,
`RAM_THRESHOLD`, `DEFAULT_STORAGE_POOL`). -/
def CPU_THRESHOLD : Nat := 90

def RAM_THRESHOLD : Nat := 90

def DEFAULT_STORAGE_POOL : String := "default"

/-! ### Registry (dict) helpers -/

/-- `vps_data.get(k)` / `k in vps_data`. -/
def dictFind (reg : Registry) (k : String) : Option (List VPS) :=
  (reg.find? (fun p => p.1 == k)).map Prod.snd

/-- `vps_data[k] = v`: update in place, or append (Python dicts keep
insertion order). -/
def dictSet (reg : Registry) (k : String) (v : List VPS) : Registry :=
  if reg.any (fun p => p.1 == k) then
    reg.map (fun p => if p.1 == k then (k, v) else p)
  else reg ++ [(k, v)]

/-- `del vps_data[k]`. -/
def dictErase (reg : Registry) (k : String) : Registry :=
  reg.filter (fun p => p.1 != k)

/-- Replace the record at index `idx` of owner `uid`'s list. -/
def reg_update (reg : Registry) (uid : String) (idx : Nat) (v : VPS) : Registry :=
  reg.map (fun p => if p.1 == uid then (p.1, p.2.set idx v) else p)

/-- Every container name in the registry, in iteration order. -/
def all_container_names (reg : Registry) : List String :=
  ((reg.map Prod.snd).flatten).map VPS.container_name

/-- First record in dict-iteration order whose `container_name` matches
(the record the source's nested `for` loops reach first). -/
def first_match : Registry → String → Option VPS
  | [], _ => none
  | (_, lst) :: rest, name =>
    match lst.find? (fun v => v.container_name == name) with
    | some v => some v
    | none => first_match rest name

/-! ### `create_vps` (the `!create` command) -/

inductive CreateResult where
  | invalidSpecs
  | gatewayFailed (cmd : String)
  | created (vps : VPS)
deriving DecidableEq

/-- The id the new record is observed under, if one was created. -/
def created_name : CreateResult → Option String
  | .created v => some v.container_name
  | _ => none

/-- `create_vps(ctx, ram, cpu, disk, user)`: validates the spec, derives
the container name from the owner id and `len(vps_data[user_id]) + 1`,
issues the five gateway commands in order (aborting at the first
failure), and on success appends the record and saves. -/
def create_vps (gw : String → Bool) (reg : Registry) (user_id : String)
    (ram cpu disk : Int) (now : String) : CreateResult × Registry :=
  if ram ≤ 0 ∨ cpu ≤ 0 ∨ disk ≤ 0 then (.invalidSpecs, reg)
  else
    let reg1 := if (dictFind reg user_id).isSome then reg else dictSet reg user_id []
    let lst := (dictFind reg1 user_id).getD []
    let vps_count : Nat := lst.length + 1
    let container_name := "unixnodes-vps-" ++ user_id ++ "-" ++ toString vps_count
    let ram_mb := ram * 1024
    let cmds := [
      "lxc init ubuntu:22.04 " ++ container_name ++ " --storage " ++ DEFAULT_STORAGE_POOL,
      "lxc config set " ++ container_name ++ " limits.memory " ++ toString ram_mb ++ "MB",
      "lxc config set " ++ container_name ++ " limits.cpu " ++ toString cpu,
      "lxc config device set " ++ container_name ++ " root size " ++ toString disk ++ "GB",
      "lxc start " ++ container_name]
    match cmds.find? (fun c => !gw c) with
    | some c => (.gatewayFailed c, reg1)
    | none =>
      let config_str := toString ram ++ "GB RAM / " ++ toString cpu ++ " CPU / " ++
        toString disk ++ "GB Disk"
      let vps_info : VPS := {
        container_name := container_name
        ram := toString ram ++ "GB"
        cpu := toString cpu
        storage := toString disk ++ "GB"
        config := config_str
        status := "running"
        suspended := false
        suspension_history := []
        created_at := now
        shared_with := [] }
      (.created vps_info, dictSet reg1 user_id (lst ++ [vps_info]))

/-! ### `delete_vps` (the `!delete-vps` command) -/

inductive DeleteResult where
  | invalid
  | gatewayFailed (cmd : String)
  | deleted (container_name : String)
deriving DecidableEq

/-- `delete_vps(ctx, user, vps_number, reason)`: validates the index,
issues the forced runtime delete, removes the record at index
`vps_number - 1` (dropping the owner's key when the list empties), and
saves. -/
def delete_vps (gw : String → Bool) (reg : Registry) (user_id : String)
    (vps_number : Int) : DeleteResult × Registry :=
  match dictFind reg user_id with
  | none => (.invalid, reg)
  | some lst =>
    if vps_number < 1 ∨ vps_number > lst.length then (.invalid, reg)
    else
      match lst.get? (vps_number - 1).toNat with
      | none => (.invalid, reg)
      | some vps =>
        let cmd := "lxc delete " ++ vps.container_name ++ " --force"
        if gw cmd then
          let lst' := lst.eraseIdx (vps_number - 1).toNat
          let reg' := if lst'.isEmpty then dictErase reg user_id
            else dictSet reg user_id lst'
          (.deleted vps.container_name, reg')
        else (.gatewayFailed cmd, reg)

/-- A gateway on which every command succeeds. -/
def gw_ok : String → Bool := fun _ => true

/-- A gateway on which every command raises. -/
def gw_fail : String → Bool := fun _ => false

/-! ### `ManageView` (the `!manage` / `!manage-shared` button panel) -/

/-- The five actions the button panel can dispatch. -/
inductive BotAction where
  | stats
  | reinstall
  | start
  | stop
  | tmate
deriving DecidableEq

/-- The outcome of the authorization prefix of
`ManageView.action_callback` before any gateway call: either an
Access-Denied style refusal carrying the message the source sends, or
the action proceeding to its handler. -/
inductive ActionOutcome where
  | denied (msg : String)
  | statsShown
  | reinstallConfirm
  | startAttempt
  | stopAttempt
  | tmateAttempt
deriving DecidableEq

/-- The check-and-dispatch sequence of `ManageView.action_callback`:
the not-your-VPS check, the suspended gate (admins exempt, `stats`
exempt), then per-action dispatch; `reinstall` is refused for shared
views and admin views, and for suspended records. -/
def action_callback_auth (interaction_user view_user_id : String)
    (is_shared is_admin suspended : Bool) (action : BotAction) : ActionOutcome :=
  if interaction_user != view_user_id && !is_admin then
    .denied "This is not your UnixNodes VPS!"
  else if suspended && !is_admin && !(action == .stats) then
    .denied "This UnixNodes VPS is suspended. Contact an admin to unsuspend."
  else
    match action with
    | .stats => .statsShown
    | .reinstall =>
      if is_shared || is_admin then
        .denied "Only the UnixNodes VPS owner can reinstall!"
      else if suspended then
        .denied "Unsuspend the UnixNodes VPS first."
      else .reinstallConfirm
    | .start => .startAttempt
    | .stop => .stopAttempt
    | .tmate =>
      if suspended then .denied "Cannot access suspended UnixNodes VPS."
      else .tmateAttempt

/-- `ManageView.add_action_buttons`: the reinstall button exists only on
an owner's own (non-shared, non-admin) view; start, stop, SSH and stats
buttons always exist. -/
def add_action_buttons (is_shared is_admin : Bool) : List BotAction :=
  (if !is_shared && !is_admin then [BotAction.reinstall] else []) ++
    [BotAction.start, BotAction.stop, BotAction.tmate, BotAction.stats]

/-- Record effect of the `start` branch of `action_callback` (reached
when the auth checks pass): a suspended record first has its
`suspended` flag cleared and saved, then `lxc start` runs, and only on
gateway success is `status` set to `running`. -/
def action_start_effect (gw_start_ok : Bool) (v : VPS) : VPS :=
  let v1 := if v.suspended then { v with suspended := false } else v
  if gw_start_ok then { v1 with status := "running" } else v1

/-- Record effect of the `stop` branch of `action_callback`: same
suspended-flag clearing, then `lxc stop`, and only on gateway success is
`status` set to `stopped`. -/
def action_stop_effect (gw_stop_ok : Bool) (v : VPS) : VPS :=
  let v1 := if v.suspended then { v with suspended := false } else v
  if gw_stop_ok then { v1 with status := "stopped" } else v1

/-! ### `share_user` (the `!share-user` command) -/

inductive ShareResult where
  | invalid
  | alreadyShared
  | shared
deriving DecidableEq

/-- `share_user(ctx, shared_user, vps_number)`: the invoker is the
owner; after index validation the grantee id is appended to the
record's `shared_with` unless already present.  (The source never
compares the grantee against the owner.) -/
def share_user (reg : Registry) (user_id shared_user_id : String)
    (vps_number : Int) : ShareResult × Registry :=
  match dictFind reg user_id with
  | none => (.invalid, reg)
  | some lst =>
    if vps_number < 1 ∨ vps_number > lst.length then (.invalid, reg)
    else
      match lst.get? (vps_number - 1).toNat with
      | none => (.invalid, reg)
      | some v =>
        if v.shared_with.contains shared_user_id then (.alreadyShared, reg)
        else
          (.shared, reg_update reg user_id (vps_number - 1).toNat
            { v with shared_with := v.shared_with ++ [shared_user_id] })

/-! ### `add_resources` (the `!add-resources` command) -/

/-- Position of the first matching record: owner id, index, record. -/
def find_vps : Registry → String → Option (String × Nat × VPS)
  | [], _ => none
  | (uid, lst) :: rest, name =>
    match (lst.enum).find? (fun p => p.2.container_name == name) with
    | some (i, v) => some (uid, i, v)
    | none => find_vps rest name

inductive ResOutcome where
  | missingParams
  | notFound
  | stopFailed
  | valueError
  | stepFailed (cmd : String)
  | success (changes : List String)
deriving DecidableEq

def posOpt : Option Int → Bool
  | some r => decide (r > 0)
  | none => false

def valOpt : Option Int → Int
  | some r => r
  | none => 0

/-- `add_resources(ctx, vps_id, ram, cpu, disk)`: find the record; stop
a running, unsuspended VPS first (recording `stopped`); apply the
memory, cpu and disk gateway steps in order, each adding its delta to
the parsed current value, aborting at the first failing step; only
after all steps succeed are the record's resource fields rewritten and
saved; finally restart if it was running.  Returns the outcome, the
registry, and the gateway commands issued in order. -/
def add_resources (gw : String → Bool) (reg : Registry) (vps_id : String)
    (ram cpu disk : Option Int) : ResOutcome × Registry × List String :=
  if ram.isNone ∧ cpu.isNone ∧ disk.isNone then (.missingParams, reg, [])
  else
    match find_vps reg vps_id with
    | none => (.notFound, reg, [])
    | some (uid, idx, v) =>
      let was_running := v.status == "running" && !v.suspended
      let stop_cmd := "lxc stop " ++ vps_id
      if was_running && !gw stop_cmd then (.stopFailed, reg, [stop_cmd])
      else
        let v1 := if was_running then { v with status := "stopped" } else v
        let reg1 := if was_running then reg_update reg uid idx v1 else reg
        let calls1 := if was_running then [stop_cmd] else []
        match parse_int (remove_gb v1.ram.toList), parse_int v1.cpu.toList,
            parse_int (remove_gb v1.storage.toList) with
        | some cur_ram, some cur_cpu, some cur_disk =>
          let new_ram : Int := (cur_ram : Int) + (if posOpt ram then valOpt ram else 0)
          let new_cpu : Int := (cur_cpu : Int) + (if posOpt cpu then valOpt cpu else 0)
          let new_disk : Int := (cur_disk : Int) + (if posOpt disk then valOpt disk else 0)
          let ram_cmd := "lxc config set " ++ vps_id ++ " limits.memory " ++
            toString (new_ram * 1024) ++ "MB"
          let cpu_cmd := "lxc config set " ++ vps_id ++ " limits.cpu " ++ toString new_cpu
          let disk_cmd := "lxc config device set " ++ vps_id ++ " root size " ++
            toString new_disk ++ "GB"
          if posOpt ram && !gw ram_cmd then (.stepFailed ram_cmd, reg1, calls1 ++ [ram_cmd])
          else
            let calls2 := calls1 ++ (if posOpt ram then [ram_cmd] else [])
            if posOpt cpu && !gw cpu_cmd then (.stepFailed cpu_cmd, reg1, calls2 ++ [cpu_cmd])
            else
              let calls3 := calls2 ++ (if posOpt cpu then [cpu_cmd] else [])
              if posOpt disk && !gw disk_cmd then
                (.stepFailed disk_cmd, reg1, calls3 ++ [disk_cmd])
              else
                let calls4 := calls3 ++ (if posOpt disk then [disk_cmd] else [])
                let changes :=
                  (if posOpt ram then
                      ["RAM: +" ++ toString (valOpt ram) ++ "GB (New total: " ++
                        toString new_ram ++ "GB)"] else []) ++
                  (if posOpt cpu then
                      ["CPU: +" ++ toString (valOpt cpu) ++ " cores (New total: " ++
                        toString new_cpu ++ " cores)"] else []) ++
                  (if posOpt disk then
                      ["Disk: +" ++ toString (valOpt disk) ++ "GB (New total: " ++
                        toString new_disk ++ "GB)"] else [])
                let v2 : VPS := { v1 with
                  ram := toString new_ram ++ "GB"
                  cpu := toString new_cpu
                  storage := toString new_disk ++ "GB"
                  config := toString new_ram ++ "GB RAM / " ++ toString new_cpu ++
                    " CPU / " ++ toString new_disk ++ "GB Disk" }
                let reg2 := reg_update reg1 uid idx v2
                let start_cmd := "lxc start " ++ vps_id
                if was_running then
                  if gw start_cmd then
                    (.success changes, reg_update reg2 uid idx { v2 with status := "running" },
                      calls4 ++ [start_cmd])
                  else (.stepFailed start_cmd, reg2, calls4 ++ [start_cmd])
                else (.success changes, reg2, calls4)
        | _, _, _ => (.valueError, reg1, calls1)

/-! ### `unsuspend_vps` (the `!unsuspend-vps` command) -/

/-- The messages `unsuspend_vps` can send. -/
inductive UnsuspendResult where
  | notFound
  | notSuspended
  | started
  | startFailed
deriving DecidableEq

/-- Bookkeeping of the source's nested loops: messages sent so far,
whether the function `return`ed early (the not-suspended branch),
whether the `found` flag was set (the success branch), and the gateway
commands issued. -/
structure InnerOut where
  msgs : List UnsuspendResult
  returned : Bool
  found : Bool
  calls : List String
deriving DecidableEq

/-- The inner `for vps in lst` loop of `unsuspend_vps`: at the first
record whose name matches, either `return` the not-suspended refusal,
or clear `suspended`, set `status = 'running'`, and only then attempt
the runtime start — whose failure leaves the already-mutated record in
place and the `found` flag unset. -/
def unsuspend_inner (gw : String → Bool) (name : String) :
    List VPS → InnerOut × List VPS
  | [] => (⟨[], false, false, []⟩, [])
  | v :: rest =>
    if v.container_name == name then
      if !v.suspended then (⟨[.notSuspended], true, false, []⟩, v :: rest)
      else
        let v' := { v with suspended := false, status := "running" }
        let cmd := "lxc start " ++ name
        if gw cmd then (⟨[.started], false, true, [cmd]⟩, v' :: rest)
        else (⟨[.startFailed], false, false, [cmd]⟩, v' :: rest)
    else
      let (o, rest') := unsuspend_inner gw name rest
      (o, v :: rest')

/-- The outer `for uid, lst in vps_data.items()` loop: stops as soon as
an inner pass returned or set `found`, otherwise keeps scanning later
owners (so a failed start does not stop the scan). -/
def unsuspend_outer (gw : String → Bool) (name : String) :
    Registry → InnerOut × Registry
  | [] => (⟨[], false, false, []⟩, [])
  | (uid, lst) :: rest =>
    let (o, lst') := unsuspend_inner gw name lst
    if o.returned || o.found then (o, (uid, lst') :: rest)
    else
      let (o2, rest') := unsuspend_outer gw name rest
      (⟨o.msgs ++ o2.msgs, o2.returned, o2.found, o.calls ++ o2.calls⟩,
        (uid, lst') :: rest')

/-- `unsuspend_vps(ctx, container_name)`: run the scan; if neither an
early `return` nor `found` happened, the trailing not-found message is
also sent.  Returns (messages, registry, gateway calls). -/
def unsuspend_vps (gw : String → Bool) (reg : Registry) (name : String) :
    List UnsuspendResult × Registry × List String :=
  let (o, reg') := unsuspend_outer gw name reg
  ((if o.returned || o.found then o.msgs else o.msgs ++ [.notFound]), reg', o.calls)

/-! ### Per-container statistics sampling -/

/-- `get_container_cpu_pct`: run `top -bn1` inside the container (the
`exec_out` argument is the gateway's stdout, `none` when the exec call
raised), find the first line containing `%Cpu(s):`, scan its blank-
separated words for `id,`, parse the preceding word (after stripping
trailing commas; for the word at index 0 Python's `words[i-1]` wraps to
the last word) as a float, and return `100 - idle`; every failure path
returns `0.0`. -/
def get_container_cpu_pct (exec_out : Option String) : ℚ :=
  match exec_out with
  | none => 0
  | some out =>
    match (split_on_char '\n' out.toList).find?
        (fun l => contains_sub l ("%Cpu(s):".toList)) with
    | none => 0
    | some line =>
      let words := pysplit line
      let idles := (words.enum).filterMap (fun p =>
        if p.2 == ("id,".toList) then
          match (if p.1 = 0 then words.getLast? else words.get? (p.1 - 1)) with
          | some w => parse_float (rstrip_comma w)
          | none => none
        else none)
      match idles.head? with
      | some idle => 100 - idle
      | none => 0

/-- `get_container_ram_pct`: run `free -m` inside the container, take
line 1, parse columns 1 (total) and 2 (used) as ints and return
`used / total * 100`; every failure path (exec raising, missing line,
missing column, unparsable int, zero total) returns `0.0`. -/
def get_container_ram_pct (exec_out : Option String) : ℚ :=
  match exec_out with
  | none => 0
  | some out =>
    let lines := split_on_char '\n' out.toList
    if lines.length > 1 then
      let parts := pysplit ((lines.get? 1).getD [])
      match parts.get? 1, parts.get? 2 with
      | some t, some u =>
        match parse_int t, parse_int u with
        | some total, some used =>
          if total > 0 then (used : ℚ) / (total : ℚ) * 100 else 0
        | _, _ => 0
      | _, _ => 0
    else 0

/-! ### The workload monitor (`vps_monitor`) -/

/-- Python `f"{x:.1f}"` on the non-negative one-decimal-exact values the
monitor formats (the claims only evaluate it on exact tenths, where no
rounding happens; `(q.num * 10).fdiv q.den` is `⌊q * 10⌋`). -/
def fmt1 (q : ℚ) : String :=
  let t : Int := (q.num * 10).fdiv (q.den : Int)
  toString (t / 10) ++ "." ++ toString (t % 10)

/-- The `reason` string `vps_monitor` builds before suspending: it
always interpolates both the CPU and the RAM reading and both
thresholds. -/
def suspension_reason (cpu ram : ℚ) : String :=
  "High resource usage: CPU " ++ fmt1 cpu ++ "%, RAM " ++ fmt1 ram ++
    "% (threshold: " ++ toString CPU_THRESHOLD ++ "% CPU / " ++
    toString RAM_THRESHOLD ++ "% RAM)"

/-- What one monitor pass did to one record: the (possibly updated)
record, whether its statistics were sampled at all, and the gateway
stop commands issued. -/
structure StepOut where
  vps : VPS
  sampled : Bool
  calls : List String
deriving DecidableEq

/-- One iteration of the inner loop of `vps_monitor`: only a record with
`status == 'running'` and `suspended` false is sampled; if either
reading exceeds its threshold the workload is stopped and, on gateway
success, the record becomes `suspended` with a history entry attributed
to `UnixNodes Auto-System`; a failed stop leaves the record unchanged
(the whole mutation sits inside the `try`). -/
def vps_monitor_step (sample_cpu sample_ram : String → ℚ) (gw : String → Bool)
    (now : String) (v : VPS) : StepOut :=
  if v.status == "running" && !v.suspended then
    let cpu := sample_cpu v.container_name
    let ram := sample_ram v.container_name
    if cpu > (CPU_THRESHOLD : ℚ) ∨ ram > (RAM_THRESHOLD : ℚ) then
      let reason := suspension_reason cpu ram
      let cmd := "lxc stop " ++ v.container_name
      if gw cmd then
        ⟨{ v with
            status := "suspended"
            suspended := true
            suspension_history := v.suspension_history ++
              [⟨now, reason, "UnixNodes Auto-System"⟩] }, true, [cmd]⟩
      else ⟨v, true, [cmd]⟩
    else ⟨v, true, []⟩
  else ⟨v, false, []⟩

/-- One sweep of `vps_monitor` over an owner's list: each record is
evaluated independently and in order (a per-record failure is caught
inside the loop body, so the sweep always reaches the next record). -/
def vps_monitor_sweep (sample_cpu sample_ram : String → ℚ) (gw : String → Bool)
    (now : String) (lst : List VPS) : List StepOut :=
  lst.map (vps_monitor_step sample_cpu sample_ram gw now)

/-! ### The host monitor (`cpu_monitor`) -/

/-- The per-record update the host monitor applies after a successful
fleet-wide stop: exactly the records with `status == 'running'` are
marked `stopped`; nothing else (in particular the `suspended` flag) is
touched. -/
def stop_running (v : VPS) : VPS :=
  if v.status == "running" then { v with status := "stopped" } else v

/-- One pass of the `cpu_monitor` loop body: if the sampled host CPU
exceeds the threshold, issue exactly one `lxc stop --all --force`; on
its success mark every running record stopped and save; on its failure
(or below threshold) the registry is untouched.  Returns the registry
and the number of fleet-stop calls issued. -/
def cpu_monitor_tick (cpu_usage : ℚ) (gw_stop_all_ok : Bool) (reg : Registry) :
    Registry × Nat :=
  if cpu_usage > (CPU_THRESHOLD : ℚ) then
    if gw_stop_all_ok then
      (reg.map (fun p => (p.1, p.2.map stop_running)), 1)
    else (reg, 1)
  else (reg, 0)

/-! ### Concrete fixtures -/

/-- A plain running, unsuspended record. -/
def vps_fix_running : VPS :=
  ⟨"r", "2GB", "1", "10GB", "2GB RAM / 1 CPU / 10GB Disk", "running", false, [], "t0", []⟩

/-- A suspended record (as written by `suspend_vps` / the monitor). -/
def vps_fix_suspended : VPS :=
  ⟨"s", "2GB", "1", "10GB", "2GB RAM / 1 CPU / 10GB Disk", "suspended", true, [], "t0", []⟩

/-- A record named `c`, running and unsuspended, with empty history. -/
def vps_fix_c : VPS :=
  ⟨"c", "2GB", "1", "10GB", "2GB RAM / 1 CPU / 10GB Disk", "running", false, [], "t0", []⟩

/-- The record named `c` in suspended state. -/
def vps_fix_c_susp : VPS :=
  ⟨"c", "2GB", "1", "10GB", "2GB RAM / 1 CPU / 10GB Disk", "suspended", true, [], "t0", []⟩

/-- Registry reached by: create two VPS for owner `U`, then delete the
first (non-last) one.  Only `unixnodes-vps-U-2` remains, but the
owner's list length is back to 1. -/
def c1_reg_after : Registry :=
  (delete_vps gw_ok
    ((create_vps gw_ok
      ((create_vps gw_ok [] "U" 2 1 10 "t1").2) "U" 2 1 10 "t2").2) "U" 1).2

/-- Gateway that fails exactly the cpu-limit step of the `add_resources`
run below, after the memory step succeeded. -/
def gw_fail_cpu_step : String → Bool :=
  fun cmd => !(cmd == "lxc config set c limits.cpu 2")

/-! ### Theorems -/

/-- C1: the claim says `create` always yields an identifier that does
not collide with any existing record, in particular after deleting a
non-last container of an owner.  The code derives the identifier from
`len(vps_data[user_id]) + 1`, so after create, create, delete-first the
next create for the same owner produces `unixnodes-vps-U-2`, the name
of the surviving record: a collision.  (Against a real runtime the
`lxc init` on the existing name then fails, so the create cannot yield
a fresh record either way.) -/
theorem create_reuses_existing_id :
    created_name (create_vps gw_ok c1_reg_after "U" 2 1 10 "t4").1 =
      some "unixnodes-vps-U-2" ∧
    "unixnodes-vps-U-2" ∈ all_container_names c1_reg_after := by decide

/-- C2: the claim says a failed runtime call leaves the record in its
pre-transition state.  `unsuspend_vps` mutates the record (clears
`suspended`, sets `status = 'running'`) before calling `lxc start`, so
when the start raises the record stays mutated; likewise the
start/stop buttons clear the `suspended` flag before their runtime
call, and a failed stop is not recorded as `stopped`. -/
theorem unsuspend_start_failure_mutates_record :
    unsuspend_vps gw_fail [("U", [vps_fix_c_susp])] "c" =
      ([.startFailed, .notFound],
        [("U", [{ vps_fix_c_susp with suspended := false, status := "running" }])],
        ["lxc start c"]) ∧
    action_start_effect false vps_fix_c_susp =
      { vps_fix_c_susp with suspended := false } ∧
    action_stop_effect false vps_fix_running = vps_fix_running := by decide

/-- C3: the claim says a mid-way gateway failure leaves the record
reflecting exactly the partially applied changes.  In `add_resources`
the record is rewritten only after all steps succeed: here the memory
step is applied to the runtime (its command is issued), the cpu step
fails, and the registry is returned fully stale — the record still
reads `2GB` RAM although the runtime was set to `3072MB`. -/
theorem add_resources_midway_failure_leaves_record_stale :
    add_resources gw_fail_cpu_step [("U", [{ vps_fix_c with status := "stopped" }])] "c"
        (some 1) (some 1) none =
      (.stepFailed "lxc config set c limits.cpu 2",
        [("U", [{ vps_fix_c with status := "stopped" }])],
        ["lxc config set c limits.memory 3072MB", "lxc config set c limits.cpu 2"]) := by
  decide

/-- C4 counterexample: at CPU 95% / RAM 50% against 90%/90% thresholds
the monitor does suspend, but the `reason` of the appended
`suspension_history` entry mentions RAM as well (it always
interpolates both readings), contradicting the claim's "mentions CPU,
not RAM". -/
theorem vps_monitor_reason_mentions_ram :
    (vps_monitor_step (fun _ => 95) (fun _ => 50) gw_ok "t1" vps_fix_c).vps.suspension_history =
      [⟨"t1", suspension_reason 95 50, "UnixNodes Auto-System"⟩] ∧
    str_contains (suspension_reason 95 50) "RAM" = true := by decide

/-- C4 as amended: a running, non-suspended container at 95% CPU and
50% RAM is suspended (workload stopped, record set to suspended) with
a `suspension_history` entry attributed to `UnixNodes Auto-System`
whose reason mentions CPU — the reason also reports the RAM reading
and both thresholds. -/
theorem vps_monitor_cpu_breach_suspends :
    vps_monitor_step (fun _ => 95) (fun _ => 50) gw_ok "t1" vps_fix_c =
      ⟨{ vps_fix_c with
          status := "suspended"
          suspended := true
          suspension_history := [⟨"t1",
            "High resource usage: CPU 95.0%, RAM 50.0% (threshold: 90% CPU / 90% RAM)",
            "UnixNodes Auto-System"⟩] }, true, ["lxc stop c"]⟩ ∧
    str_contains
      "High resource usage: CPU 95.0%, RAM 50.0% (threshold: 90% CPU / 90% RAM)"
      "CPU" = true := by decide

/-- C5: only records with `status == 'running'` and `suspended` false
are evaluated: a suspended record is skipped without being sampled, a
record whose status is not `running` is skipped without being sampled,
and a running, non-suspended record whose readings are at or below the
thresholds (e.g. 50%/50%) is sampled but left untouched. -/
theorem vps_monitor_eval_filter (sc sr : String → ℚ) (gw : String → Bool)
    (now : String) (v : VPS) :
    (v.suspended = true → vps_monitor_step sc sr gw now v = ⟨v, false, []⟩) ∧
    (v.status ≠ "running" → vps_monitor_step sc sr gw now v = ⟨v, false, []⟩) ∧
    (v.status = "running" → v.suspended = false →
      sc v.container_name ≤ (CPU_THRESHOLD : ℚ) →
      sr v.container_name ≤ (RAM_THRESHOLD : ℚ) →
      vps_monitor_step sc sr gw now v = ⟨v, true, []⟩) := by
  refine ⟨fun h => ?_, fun h => ?_, fun h1 h2 hc hr => ?_⟩
  · simp [vps_monitor_step, h]
  · simp [vps_monitor_step, h]
  · have hcpu : ¬sc v.container_name > (CPU_THRESHOLD : ℚ) := not_lt.mpr hc
    have hram : ¬sr v.container_name > (RAM_THRESHOLD : ℚ) := not_lt.mpr hr
    simp [vps_monitor_step, h1, h2, hcpu, hram]

/-- Witness for C5 at concrete inputs: an already-suspended record is
skipped unsampled, and a running record at 50%/50% is sampled but
untouched. -/
theorem vps_monitor_eval_filter_witness :
    vps_monitor_step (fun _ => 50) (fun _ => 50) gw_ok "t1" vps_fix_suspended =
      ⟨vps_fix_suspended, false, []⟩ ∧
    vps_monitor_step (fun _ => 50) (fun _ => 50) gw_ok "t1" vps_fix_running =
      ⟨vps_fix_running, true, []⟩ :=
  ⟨(vps_monitor_eval_filter _ _ _ _ _).1 rfl,
   (vps_monitor_eval_filter _ _ _ _ _).2.2 rfl rfl
     (by norm_num [CPU_THRESHOLD]) (by norm_num [RAM_THRESHOLD])⟩

/-- C6: at a sampled host CPU of 95% against the 90% threshold the host
monitor issues exactly one fleet-wide stop, every record whose status
was `running` becomes `stopped` (all other fields, including the
`suspended` flag, untouched), and every record whose status was not
`running` (stopped or suspended) is unchanged. -/
theorem cpu_monitor_threshold_breach (reg : Registry) :
    (cpu_monitor_tick 95 true reg).2 = 1 ∧
    (cpu_monitor_tick 95 true reg).1 =
      reg.map (fun p => (p.1, p.2.map stop_running)) ∧
    (∀ v : VPS, v.status = "running" → stop_running v = { v with status := "stopped" }) ∧
    (∀ v : VPS, v.status ≠ "running" → stop_running v = v) := by
  have h95 : (95 : ℚ) > (CPU_THRESHOLD : ℚ) := by norm_num [CPU_THRESHOLD]
  refine ⟨?_, ?_, fun v hv => ?_, fun v hv => ?_⟩
  · simp [cpu_monitor_tick, h95]
  · simp [cpu_monitor_tick, h95]
  · simp [stop_running, hv]
  · simp [stop_running, hv]

/-- Witness for C6 at a concrete registry holding one running and one
suspended record. -/
theorem cpu_monitor_threshold_breach_witness :
    (cpu_monitor_tick 95 true [("U", [vps_fix_running, vps_fix_suspended])]).2 = 1 ∧
    stop_running vps_fix_running = { vps_fix_running with status := "stopped" } ∧
    stop_running vps_fix_suspended = vps_fix_suspended :=
  ⟨(cpu_monitor_threshold_breach [("U", [vps_fix_running, vps_fix_suspended])]).1,
   (cpu_monitor_threshold_breach [("U", [vps_fix_running, vps_fix_suspended])]).2.2.1
     vps_fix_running rfl,
   (cpu_monitor_threshold_breach [("U", [vps_fix_running, vps_fix_suspended])]).2.2.2
     vps_fix_suspended (by decide)⟩

/-- Helper for C7: a list without a matching record passes through the
inner loop of `unsuspend_vps` untouched. -/
theorem unsuspend_inner_no_match (gw : String → Bool) (name : String)
    (lst : List VPS) (h : lst.find? (fun v => v.container_name == name) = none) :
    unsuspend_inner gw name lst = (⟨[], false, false, []⟩, lst) := by
  induction lst with
  | nil => rfl
  | cons w rest ih =>
    cases hc : (w.container_name == name) with
    | true => simp [List.find?, hc] at h
    | false =>
      have h' : rest.find? (fun v => v.container_name == name) = none := by
        simpa [List.find?, hc] using h
      simp [unsuspend_inner, hc, ih h']

/-- Helper for C7: when the first matching record of a list is not
suspended, the inner loop returns the not-suspended refusal, issues no
gateway call and leaves the list untouched. -/
theorem unsuspend_inner_first_not_suspended (gw : String → Bool) (name : String)
    (lst : List VPS) (v : VPS)
    (h : lst.find? (fun v => v.container_name == name) = some v)
    (hs : v.suspended = false) :
    unsuspend_inner gw name lst = (⟨[.notSuspended], true, false, []⟩, lst) := by
  induction lst with
  | nil => simp [List.find?] at h
  | cons w rest ih =>
    cases hc : (w.container_name == name) with
    | true =>
      have hw : w = v := by simpa [List.find?, hc] using h
      subst hw
      simp [unsuspend_inner, hc, hs]
    | false =>
      have h' : rest.find? (fun v => v.container_name == name) = some v := by
        simpa [List.find?, hc] using h
      simp [unsuspend_inner, hc, ih h']

/-- Helper for C7: the registry-wide scan, when the first matching
record is not suspended. -/
theorem unsuspend_outer_not_suspended (gw : String → Bool) (name : String)
    (reg : Registry) (v : VPS)
    (h : first_match reg name = some v) (hs : v.suspended = false) :
    unsuspend_outer gw name reg = (⟨[.notSuspended], true, false, []⟩, reg) := by
  induction reg with
  | nil => simp [first_match] at h
  | cons p rest ih =>
    obtain ⟨uid, lst⟩ := p
    cases hf : lst.find? (fun w => w.container_name == name) with
    | some w =>
      have hw : w = v := by simpa [first_match, hf] using h
      subst hw
      simp [unsuspend_outer, unsuspend_inner_first_not_suspended gw name lst w hf hs]
    | none =>
      have h' : first_match rest name = some v := by simpa [first_match, hf] using h
      simp [unsuspend_outer, unsuspend_inner_no_match gw name lst hf, ih h']

/-- C7: calling `unsuspend_vps` on a container whose record is found
and not suspended is a no-op: the only message is the Not-Suspended
negative result, no gateway command (in particular no `lxc start`) is
issued, and the registry is returned unchanged. -/
theorem unsuspend_already_running_noop (gw : String → Bool) (reg : Registry)
    (name : String) (v : VPS)
    (h : first_match reg name = some v) (hs : v.suspended = false) :
    unsuspend_vps gw reg name = ([.notSuspended], reg, []) := by
  simp [unsuspend_vps, unsuspend_outer_not_suspended gw name reg v h hs]

/-- Witness for C7 at a concrete one-record registry whose record is
running and not suspended. -/
theorem unsuspend_already_running_noop_witness :
    unsuspend_vps gw_ok [("U", [vps_fix_running])] "r" =
      ([.notSuspended], [("U", [vps_fix_running])], []) :=
  unsuspend_already_running_noop gw_ok _ "r" vps_fix_running (by decide) rfl

/-- C8: on a shared view (`is_shared = true`), the reinstall action is
always refused by `action_callback` — whatever the interacting user,
the admin flag or the suspended state — and the button panel of a
shared view offers exactly the shared-accessible actions: start, stop,
SSH and stats. -/
theorem shared_grantee_reinstall_always_denied (u uid : String) (adm susp : Bool) :
    (∃ msg, action_callback_auth u uid true adm susp .reinstall = .denied msg) ∧
    add_action_buttons true adm =
      [BotAction.start, BotAction.stop, BotAction.tmate, BotAction.stats] := by
  constructor
  · cases hu : (u != uid) <;> cases adm <;> cases susp <;>
      simp [action_callback_auth, hu]
  · cases adm <;> rfl

/-- C9: the claim says the share operation cannot put the owner into
their own `shared_with`.  `share_user` never compares the grantee with
the invoking owner, so the owner sharing VPS 1 with themself succeeds
and the record's `shared_with` afterwards contains the owner id. -/
theorem share_user_owner_self_grant :
    share_user [("U", [vps_fix_running])] "U" "U" 1 =
      (.shared, [("U", [{ vps_fix_running with shared_with := ["U"] }])]) := by decide

/-- C10: a raising exec call makes both samplers return `0.0` instead
of an error; with both readings `0` (never above the positive 90%
thresholds) the monitor step leaves every record unchanged and issues
no stop; and the sweep over a list is element-wise, so it always
continues to the next container. -/
theorem stats_failure_zero_never_suspends :
    get_container_cpu_pct none = 0 ∧ get_container_ram_pct none = 0 ∧
    (∀ (gw : String → Bool) (now : String) (v : VPS),
      (vps_monitor_step (fun _ => get_container_cpu_pct none)
        (fun _ => get_container_ram_pct none) gw now v).vps = v ∧
      (vps_monitor_step (fun _ => get_container_cpu_pct none)
        (fun _ => get_container_ram_pct none) gw now v).calls = []) ∧
    (∀ (sc sr : String → ℚ) (gw : String → Bool) (now : String) (v : VPS)
        (rest : List VPS),
      vps_monitor_sweep sc sr gw now (v :: rest) =
        vps_monitor_step sc sr gw now v :: vps_monitor_sweep sc sr gw now rest) := by
  refine ⟨rfl, rfl, fun gw now v => ?_, fun sc sr gw now v rest => rfl⟩
  have hz : ¬((0 : ℚ) > (CPU_THRESHOLD : ℚ) ∨ (0 : ℚ) > (RAM_THRESHOLD : ℚ)) := by
    norm_num [CPU_THRESHOLD, RAM_THRESHOLD]
  by_cases h : (v.status == "running" && !v.suspended) = true
  · constructor <;>
      simp [vps_monitor_step, h, get_container_cpu_pct, get_container_ram_pct, hz]
  · constructor <;> simp [vps_monitor_step, h]
